import Mathlib

/-!
Shallow embedding of the search core of takara-ai/serverlessVector
(files lib/types.go, lib/distance.go, lib/search.go).

Modelling choices:
- Floating-point values of both supported element widths (float32, float64)
  are modelled as exact rationals; arithmetic is exact.  The spec requires a
  deterministic summation order precisely so that results are reproducible,
  and none of the verified claims depends on rounding.
- The 64-bit float score type is modelled as `WithTop ℚ`: the value
  `math.Inf(1)` returned by the distance metrics on a length mismatch is `⊤`,
  and every other reachable score is finite.  `WithTop ℚ` is linearly ordered
  with `⊤` maximal, matching IEEE comparisons on the reachable values.
- `math.Sqrt` is modelled by `Rat.sqrt`; the claims use only its
  nonnegativity, not its numeric value.
- Go `int` values (`VectorType`, `DistanceFunction`, `topK`) are modelled as
  `Int`, since the code has `default:` fallback branches reachable by values
  outside the named constants.
- The candidate map `db.vectors` is modelled as a `List Vector`: one fixed
  iteration-order snapshot, as required by the spec's concurrency contract
  (the store hands the engine a stable snapshot).  The mutex is not modelled.
- Go's `sort.Slice` sorts by a strict comparator with unspecified tie order;
  it is modelled by `List.mergeSort` with the induced non-strict order.  The
  verified ordering claims do not depend on the tie order.
-/

namespace ServerlessVector

/-- VectorType from lib/types.go: a Go `int` with named constants. -/
abbrev VectorType := Int

/-- Float32 constant (iota 0) from lib/types.go. -/
def Float32 : VectorType := 0

/-- Float64 constant (iota 1) from lib/types.go. -/
def Float64 : VectorType := 1

/-- DistanceFunction from lib/types.go: a Go `int` with named constants. -/
abbrev DistanceFunction := Int

/-- CosineSimilarity constant (iota 0) from lib/types.go. -/
def CosineSimilarity : DistanceFunction := 0

/-- DotProduct constant (iota 1) from lib/types.go. -/
def DotProduct : DistanceFunction := 1

/-- EuclideanDistance constant (iota 2) from lib/types.go. -/
def EuclideanDistance : DistanceFunction := 2

/-- ManhattanDistance constant (iota 3) from lib/types.go. -/
def ManhattanDistance : DistanceFunction := 3

/-- NumericOps from lib/types.go: the per-width arithmetic ops.  In the
exact-rational model the element type and the 64-bit compute type coincide,
so `toFloat64` and `fromFloat64` are identities. -/
structure NumericOps where
  add : ℚ → ℚ → ℚ
  mul : ℚ → ℚ → ℚ
  sqrt : ℚ → ℚ
  toFloat64 : ℚ → ℚ
  fromFloat64 : ℚ → ℚ
  isNaN : ℚ → Bool
  isInf : ℚ → Bool

/-- Float32Ops from lib/types.go, with float32 arithmetic modelled exactly. -/
def Float32Ops : NumericOps :=
  { add := fun a b => a + b
    mul := fun a b => a * b
    sqrt := Rat.sqrt
    toFloat64 := fun a => a
    fromFloat64 := fun a => a
    isNaN := fun _ => false
    isInf := fun _ => false }

/-- Float64Ops from lib/types.go, with float64 arithmetic modelled exactly. -/
def Float64Ops : NumericOps :=
  { add := fun a b => a + b
    mul := fun a b => a * b
    sqrt := Rat.sqrt
    toFloat64 := fun a => a
    fromFloat64 := fun a => a
    isNaN := fun _ => false
    isInf := fun _ => false }

/-- getNumericOps from lib/types.go: switch on the width with a Float64Ops
default fallback. -/
def getNumericOps (vt : VectorType) : NumericOps :=
  if vt = Float32 then Float32Ops
  else if vt = Float64 then Float64Ops
  else Float64Ops

/-- dotProduct from lib/distance.go.  Length mismatch returns 0.  The Go
loop is unrolled by 8 but visits indices `0..n-1` left to right exactly once,
which is the fold over the zipped lists; the `n == 0` early return also
yields 0, the fold's value on the empty list. -/
def dotProduct (a b : List ℚ) (vecType : VectorType) : ℚ :=
  if a.length ≠ b.length then 0
  else
    let ops := getNumericOps vecType
    ops.toFloat64
      ((a.zip b).foldl (fun sum p => ops.add sum (ops.mul p.1 p.2)) (ops.fromFloat64 0))

/-- norm from lib/distance.go: the L2 norm helper. -/
def norm (v : List ℚ) (vecType : VectorType) : ℚ :=
  let ops := getNumericOps vecType
  ops.toFloat64 (ops.sqrt (v.foldl (fun sum val => ops.add sum (ops.mul val val)) (ops.fromFloat64 0)))

/-- cosineSimilarity from lib/distance.go. -/
def cosineSimilarity (a b : List ℚ) (vecType : VectorType) : ℚ :=
  let dotProd := dotProduct a b vecType
  let normA := norm a vecType
  let normB := norm b vecType
  if normA = 0 ∨ normB = 0 then 0
  else dotProd / (normA * normB)

/-- euclideanDistance from lib/distance.go.  Length mismatch returns
`math.Inf(1)`, modelled as `⊤`. -/
def euclideanDistance (a b : List ℚ) (vecType : VectorType) : WithTop ℚ :=
  if a.length ≠ b.length then ⊤
  else
    let ops := getNumericOps vecType
    let sum := (a.zip b).foldl
      (fun sum p =>
        let diff := ops.add p.1 (ops.mul p.2 (ops.fromFloat64 (-1)))
        ops.add sum (ops.mul diff diff))
      (ops.fromFloat64 0)
    ((ops.toFloat64 (ops.sqrt sum) : ℚ) : WithTop ℚ)

/-- manhattanDistance from lib/distance.go.  Length mismatch returns
`math.Inf(1)`, modelled as `⊤`. -/
def manhattanDistance (a b : List ℚ) (vecType : VectorType) : WithTop ℚ :=
  if a.length ≠ b.length then ⊤
  else
    let ops := getNumericOps vecType
    let sum := (a.zip b).foldl
      (fun sum p =>
        let diff := ops.add p.1 (ops.mul p.2 (ops.fromFloat64 (-1)))
        let absDiff := if ops.toFloat64 diff < 0 then ops.mul diff (ops.fromFloat64 (-1)) else diff
        ops.add sum absDiff)
      (ops.fromFloat64 0)
    ((ops.toFloat64 sum : ℚ) : WithTop ℚ)

/-- VectorMetadata from lib/types.go.  Tags (a Go map) are an association
list; the contents are never inspected by the search core. -/
structure VectorMetadata where
  createdAt : Int := 0
  updatedAt : Int := 0
  tags : List (String × String) := []
  score : ℚ := 0
deriving DecidableEq, Inhabited

/-- Vector from lib/types.go: a stored vector with its width tag.  The Go
field `Type` is `type` here, `Type` being a Lean keyword. -/
structure Vector where
  ID : String
  Data : List ℚ
  type : VectorType
  Metadata : VectorMetadata := {}
deriving DecidableEq

/-- SimilarityResult from lib/types.go: one scored candidate. -/
structure SimilarityResult where
  ID : String
  Score : WithTop ℚ
  Metadata : VectorMetadata := {}
deriving DecidableEq

/-- SearchResult from lib/types.go. -/
structure SearchResult where
  QueryID : String := ""
  Results : List SimilarityResult
  Total : Nat := 0
deriving DecidableEq

/-- The errors searchCore can return, structured instead of Go error
strings.  `dimensionMismatch` carries the query length then the stored
length, the two numbers named in the Go format string. -/
inductive SearchError where
  | unsupportedType
  | emptyQuery
  | dimensionMismatch (queryDim storedDim : Nat)
deriving DecidableEq

/-- A query as handed to searchCore: Go `interface{}` holding a typed
slice, or anything else (the unsupported case of convertToInterfaceSlice). -/
inductive QueryInput where
  | float32Slice (data : List ℚ)
  | float64Slice (data : List ℚ)
  | unsupportedInput
deriving DecidableEq

/-- convertToInterfaceSlice from lib/types.go: decode the query into a
numeric sequence plus width tag, or fail with the unsupported-type error. -/
def convertToInterfaceSlice : QueryInput → Except SearchError (List ℚ × VectorType)
  | .float32Slice data => .ok (data, Float32)
  | .float64Slice data => .ok (data, Float64)
  | .unsupportedInput => .error .unsupportedType

/-- VectorDB from lib/types.go.  `vectors` is one iteration-order snapshot
of the Go map; the mutex is not modelled (the spec requires the snapshot to
be stable for the duration of a call). -/
structure VectorDB where
  vectors : List Vector
  dimension : Nat := 0
  distFunc : DistanceFunction

/-- calculateSimilarity from lib/search.go: dispatch on the metric with a
dot-product default fallback.  Cosine and dot scores are always finite;
they are coerced into the float64 score type `WithTop ℚ`. -/
def calculateSimilarity (a b : List ℚ) (vecType : VectorType) (distanceFunc : DistanceFunction) :
    WithTop ℚ :=
  if distanceFunc = CosineSimilarity then ((cosineSimilarity a b vecType : ℚ) : WithTop ℚ)
  else if distanceFunc = DotProduct then ((dotProduct a b vecType : ℚ) : WithTop ℚ)
  else if distanceFunc = EuclideanDistance then euclideanDistance a b vecType
  else if distanceFunc = ManhattanDistance then manhattanDistance a b vecType
  else ((dotProduct a b vecType : ℚ) : WithTop ℚ)

/-- The filter test of the candidate loop: `filterFunc != nil && !filterFunc(vector)`
means the vector is dropped; `passesFilter` is the complement. -/
def passesFilter (filterFunc : Option (Vector → Bool)) (vector : Vector) : Bool :=
  match filterFunc with
  | some f => f vector
  | none => true

/-- The candidate loop of searchCore (lib/search.go lines 61-88): skip
filtered-out candidates, abort on a length mismatch, skip width mismatches,
otherwise score and append. -/
def searchLoop (distFunc : DistanceFunction) (querySlice : List ℚ) (queryType : VectorType)
    (includeMetadata : Bool) (filterFunc : Option (Vector → Bool)) :
    List Vector → Except SearchError (List SimilarityResult)
  | [] => .ok []
  | vector :: rest =>
    if ¬ passesFilter filterFunc vector then
      searchLoop distFunc querySlice queryType includeMetadata filterFunc rest
    else if vector.Data.length ≠ querySlice.length then
      .error (.dimensionMismatch querySlice.length vector.Data.length)
    else if vector.type ≠ queryType then
      searchLoop distFunc querySlice queryType includeMetadata filterFunc rest
    else
      let score := calculateSimilarity querySlice vector.Data queryType distFunc
      let result : SimilarityResult :=
        { ID := vector.ID
          Score := score
          Metadata := if includeMetadata then vector.Metadata else {} }
      (searchLoop distFunc querySlice queryType includeMetadata filterFunc rest).map
        (fun results => result :: results)

/-- The strict comparator passed to sort.Slice in searchCore: ascending
score for the distance metrics, descending for everything else. -/
def lessFn (distFunc : DistanceFunction) (x y : SimilarityResult) : Bool :=
  if distFunc = EuclideanDistance ∨ distFunc = ManhattanDistance then
    decide (x.Score < y.Score)
  else
    decide (y.Score < x.Score)

/-- The non-strict order induced by `lessFn`: x may precede y when the
strict comparator does not demand y before x. -/
def sortLe (distFunc : DistanceFunction) (x y : SimilarityResult) : Bool :=
  ! lessFn distFunc y x

/-- The sort.Slice call of searchCore, modelled as a sort by the non-strict
order induced by `lessFn` (sort.Slice guarantees the output is sorted by
the comparator; its tie order is unspecified, so any correct deterministic
sort models it). -/
def sortResults (distFunc : DistanceFunction) (results : List SimilarityResult) :
    List SimilarityResult :=
  results.insertionSort (fun x y => sortLe distFunc x y = true)

/-- The body of searchCore after query decoding (lib/search.go lines
45-108): validate, normalize topK, short-circuit an empty candidate set,
scan, sort, truncate.  Split from `searchCore` for proof modularity. -/
def rankDecoded (db : VectorDB) (querySlice : List ℚ) (queryType : VectorType) (topK : Int)
    (includeMetadata : Bool) (filterFunc : Option (Vector → Bool)) :
    Except SearchError SearchResult :=
  if querySlice.length = 0 then
    .error .emptyQuery
  else
    let topK := if topK ≤ 0 then 10 else topK
    if db.vectors.length = 0 then
      .ok { Results := [] }
    else
      match searchLoop db.distFunc querySlice queryType includeMetadata filterFunc db.vectors with
      | .error e => .error e
      | .ok results =>
        let sorted := sortResults db.distFunc results
        let final := if (sorted.length : Int) > topK then sorted.take topK.toNat else sorted
        .ok { Results := final, Total := final.length }

/-- searchCore from lib/search.go: decode the query, then rank. -/
def searchCore (db : VectorDB) (query : QueryInput) (topK : Int) (includeMetadata : Bool)
    (filterFunc : Option (Vector → Bool)) : Except SearchError SearchResult :=
  match convertToInterfaceSlice query with
  | .error e => .error e
  | .ok (querySlice, queryType) =>
    rankDecoded db querySlice queryType topK includeMetadata filterFunc

/-- Search from lib/search.go: variadic topK defaulting to 10. -/
def Search (db : VectorDB) (query : QueryInput) (topK : Option Int) :
    Except SearchError SearchResult :=
  searchCore db query (topK.getD 10) true none

/-- The loop of BatchSearch: run searchCore per named query, abort the
whole batch on the first error, annotating it with the query identifier. -/
def batchLoop (db : VectorDB) (k : Int) :
    List (String × QueryInput) → Except (String × SearchError) (List (String × SearchResult))
  | [] => .ok []
  | (queryID, query) :: rest =>
    match searchCore db query k true none with
    | .error e => .error (queryID, e)
    | .ok result =>
      (batchLoop db k rest).map
        (fun results => (queryID, { result with QueryID := queryID }) :: results)

/-- BatchSearch from lib/search.go.  The queries map is modelled as an
association list (one iteration-order snapshot); the result map likewise. -/
def BatchSearch (db : VectorDB) (queries : List (String × QueryInput)) (topK : Option Int) :
    Except (String × SearchError) (List (String × SearchResult)) :=
  batchLoop db (topK.getD 10) queries

/-- A candidate qualifies for ranking when it passes the filter and matches
the query's length and width (the candidates that end up scored). -/
def qualifies (querySlice : List ℚ) (queryType : VectorType)
    (filterFunc : Option (Vector → Bool)) (v : Vector) : Bool :=
  passesFilter filterFunc v && v.Data.length == querySlice.length && v.type == queryType

/-- Both width tags dispatch to the same exact-rational ops. -/
lemma getNumericOps_eq (vt : VectorType) : getNumericOps vt = Float64Ops := by
  unfold getNumericOps Float32Ops Float64Ops
  split
  · rfl
  · split <;> rfl

/-- dotProduct with the ops projections reduced. -/
lemma dotProduct_def (a b : List ℚ) (vt : VectorType) :
    dotProduct a b vt =
      if a.length ≠ b.length then 0
      else (a.zip b).foldl (fun sum p => sum + p.1 * p.2) 0 := by
  simp only [dotProduct, getNumericOps_eq, Float64Ops]

/-- norm with the ops projections reduced. -/
lemma norm_def (v : List ℚ) (vt : VectorType) :
    norm v vt = Rat.sqrt (v.foldl (fun sum val => sum + val * val) 0) := by
  simp only [norm, getNumericOps_eq, Float64Ops]

/-- euclideanDistance with the ops projections reduced. -/
lemma euclideanDistance_def (a b : List ℚ) (vt : VectorType) :
    euclideanDistance a b vt =
      if a.length ≠ b.length then ⊤
      else ((Rat.sqrt ((a.zip b).foldl
        (fun sum p => sum + (p.1 + p.2 * (-1)) * (p.1 + p.2 * (-1))) 0) : ℚ) : WithTop ℚ) := by
  simp only [euclideanDistance, getNumericOps_eq, Float64Ops]

/-- manhattanDistance with the ops projections reduced. -/
lemma manhattanDistance_def (a b : List ℚ) (vt : VectorType) :
    manhattanDistance a b vt =
      if a.length ≠ b.length then ⊤
      else (((a.zip b).foldl
        (fun sum p =>
          sum + (if p.1 + p.2 * (-1) < 0 then (p.1 + p.2 * (-1)) * (-1) else p.1 + p.2 * (-1)))
        0 : ℚ) : WithTop ℚ) := by
  simp only [manhattanDistance, getNumericOps_eq, Float64Ops]

/-- Claim C5: for Numeric Sequences of differing lengths, dotProduct and
cosineSimilarity return 0, euclideanDistance and manhattanDistance return
positive infinity. -/
theorem metrics_length_mismatch_values (a b : List ℚ) (vt : VectorType)
    (h : a.length ≠ b.length) :
    dotProduct a b vt = 0 ∧ cosineSimilarity a b vt = 0 ∧
      euclideanDistance a b vt = ⊤ ∧ manhattanDistance a b vt = ⊤ := by
  have hdot : dotProduct a b vt = 0 := by rw [dotProduct_def]; simp [h]
  refine ⟨hdot, ?_, ?_, ?_⟩
  · unfold cosineSimilarity
    rw [hdot]
    by_cases hn : norm a vt = 0 ∨ norm b vt = 0 <;> simp [hn]
  · rw [euclideanDistance_def]; simp [h]
  · rw [manhattanDistance_def]; simp [h]

theorem metrics_length_mismatch_values_witness :
    dotProduct [1] [1, 2] Float64 = 0 ∧ cosineSimilarity [1] [1, 2] Float64 = 0 ∧
      euclideanDistance [1] [1, 2] Float64 = ⊤ ∧ manhattanDistance [1] [1, 2] Float64 = ⊤ :=
  metrics_length_mismatch_values [1] [1, 2] Float64 (by decide)

/-- Folding the pairwise products is invariant under swapping every pair. -/
lemma foldl_mul_swap (l : List (ℚ × ℚ)) :
    ∀ init : ℚ,
      (l.map Prod.swap).foldl (fun sum p => sum + p.1 * p.2) init =
        l.foldl (fun sum p => sum + p.1 * p.2) init := by
  induction l with
  | nil => intro init; rfl
  | cons p rest ih =>
    intro init
    simp only [List.map_cons, List.foldl_cons, Prod.fst_swap, Prod.snd_swap]
    rw [mul_comm p.2 p.1]
    exact ih (init + p.1 * p.2)

/-- Claim C8: dotProduct is commutative on non-empty equal-length sequences
of a common width. -/
theorem dotProduct_comm (a b : List ℚ) (vt : VectorType)
    (_hne : a ≠ []) (hlen : a.length = b.length) :
    dotProduct a b vt = dotProduct b a vt := by
  rw [dotProduct_def, dotProduct_def, if_neg (by simp [hlen]), if_neg (by simp [hlen])]
  rw [← List.zip_swap a b, foldl_mul_swap]

theorem dotProduct_comm_witness :
    dotProduct [1, 2] [3, 4] Float64 = dotProduct [3, 4] [1, 2] Float64 :=
  dotProduct_comm [1, 2] [3, 4] Float64 (by decide) (by decide)

/-- Folding sum of nonnegative absolute differences stays nonnegative. -/
lemma foldl_absdiff_nonneg (l : List (ℚ × ℚ)) :
    ∀ init : ℚ, 0 ≤ init →
      0 ≤ l.foldl
        (fun sum p =>
          sum + (if p.1 + p.2 * (-1) < 0 then (p.1 + p.2 * (-1)) * (-1) else p.1 + p.2 * (-1)))
        init := by
  induction l with
  | nil => intro init h; exact h
  | cons p rest ih =>
    intro init h
    simp only [List.foldl_cons]
    refine ih _ ?_
    have hterm : 0 ≤ (if p.1 + p.2 * (-1) < 0 then (p.1 + p.2 * (-1)) * (-1) else p.1 + p.2 * (-1)) := by
      split

      · linarith
      · linarith [not_lt.mp (by assumption : ¬ p.1 + p.2 * (-1) < 0)]
    linarith

/-- Claim C9: euclideanDistance and manhattanDistance are nonnegative for
all inputs. -/
theorem distances_nonneg (a b : List ℚ) (vt : VectorType) :
    0 ≤ euclideanDistance a b vt ∧ 0 ≤ manhattanDistance a b vt := by
  constructor
  · rw [euclideanDistance_def]
    split
    · exact le_top
    · exact_mod_cast Rat.sqrt_nonneg _
  · rw [manhattanDistance_def]
    split
    · exact le_top
    · exact_mod_cast foldl_absdiff_nonneg _ 0 le_rfl

/-- searchCore at a successfully decoded query runs the ranking pipeline. -/
lemma searchCore_eq_of_convert {query : QueryInput} {querySlice : List ℚ} {queryType : VectorType}
    (hconv : convertToInterfaceSlice query = .ok (querySlice, queryType))
    (db : VectorDB) (topK : Int) (includeMetadata : Bool) (filterFunc : Option (Vector → Bool)) :
    searchCore db query topK includeMetadata filterFunc =
      rankDecoded db querySlice queryType topK includeMetadata filterFunc := by
  unfold searchCore
  rw [hconv]

/-- If some candidate in the list passes the filter and has a mismatched
length, the candidate loop fails with a dimension-mismatch error naming the
query length and such a candidate's length. -/
lemma searchLoop_mismatch_error (df : DistanceFunction) (qs : List ℚ) (qt : VectorType)
    (im : Bool) (fl : Option (Vector → Bool)) :
    ∀ l : List Vector,
      (∃ v ∈ l, passesFilter fl v = true ∧ v.Data.length ≠ qs.length) →
      ∃ v ∈ l, passesFilter fl v = true ∧ v.Data.length ≠ qs.length ∧
        searchLoop df qs qt im fl l = .error (.dimensionMismatch qs.length v.Data.length) := by
  intro l
  induction l with
  | nil => intro h; simp at h
  | cons v rest ih =>
    intro h
    by_cases hp : passesFilter fl v = true
    · by_cases hd : v.Data.length ≠ qs.length
      · exact ⟨v, List.mem_cons_self v rest, hp, hd, by simp [searchLoop, hp, hd]⟩
      · push_neg at hd
        have hrest : ∃ w ∈ rest, passesFilter fl w = true ∧ w.Data.length ≠ qs.length := by
          obtain ⟨w, hw, hwp, hwd⟩ := h
          rcases List.mem_cons.mp hw with rfl | hw2
          · exact absurd hd hwd
          · exact ⟨w, hw2, hwp, hwd⟩
        obtain ⟨w, hw, hwp, hwd, hloop⟩ := ih hrest
        refine ⟨w, List.mem_cons_of_mem v hw, hwp, hwd, ?_⟩
        by_cases ht : v.type ≠ qt
        · simp [searchLoop, hp, hd, ht, hloop]
        · simp [searchLoop, hp, hd, ht, hloop, Except.map]
    · have hrest : ∃ w ∈ rest, passesFilter fl w = true ∧ w.Data.length ≠ qs.length := by
        obtain ⟨w, hw, hwp, hwd⟩ := h
        rcases List.mem_cons.mp hw with rfl | hw2
        · exact absurd hwp hp
        · exact ⟨w, hw2, hwp, hwd⟩
      obtain ⟨w, hw, hwp, hwd, hloop⟩ := ih hrest
      exact ⟨w, List.mem_cons_of_mem v hw, hwp, hwd, by simp [searchLoop, hp, hloop]⟩

/-- On success the candidate loop returns exactly one scored entry per
qualifying candidate, in iteration order. -/
lemma searchLoop_ok_length (df : DistanceFunction) (qs : List ℚ) (qt : VectorType)
    (im : Bool) (fl : Option (Vector → Bool)) :
    ∀ (l : List Vector) (rs : List SimilarityResult),
      searchLoop df qs qt im fl l = .ok rs →
      rs.length = (l.filter (qualifies qs qt fl)).length := by
  intro l
  induction l with
  | nil =>
    intro rs h
    simp only [searchLoop, Except.ok.injEq] at h
    subst h
    simp
  | cons v rest ih =>
    intro rs h
    by_cases hp : passesFilter fl v = true
    · by_cases hd : v.Data.length ≠ qs.length
      · simp [searchLoop, hp, hd] at h
      · by_cases ht : v.type ≠ qt
        · simp only [searchLoop, hp, hd, ht] at h
          simp only [not_true_eq_false, Bool.not_eq_true, if_neg, if_pos, ite_true, ite_false] at h
          rw [ih rs (by simpa [hp, hd, ht] using h)]
          simp [List.filter_cons, qualifies, hp, hd, ht]
        · push_neg at hd ht
          have h2 : (searchLoop df qs qt im fl rest).map
              (fun results =>
                ({ ID := v.ID
                   Score := calculateSimilarity qs v.Data qt df
                   Metadata := if im then v.Metadata else {} } : SimilarityResult) :: results) =
              .ok rs := by
            simpa [searchLoop, hp, hd, ht] using h
          cases hrest : searchLoop df qs qt im fl rest with
          | error e => rw [hrest] at h2; simp [Except.map] at h2
          | ok rs2 =>
            rw [hrest] at h2
            simp only [Except.map, Except.ok.injEq] at h2
            subst h2
            simp [List.filter_cons, qualifies, hp, hd, ht, ih rs2 hrest]
    · have h2 : searchLoop df qs qt im fl rest = .ok rs := by
        simpa [searchLoop, hp] using h
      rw [ih rs h2]
      simp [List.filter_cons, qualifies, hp]

/-- A candidate with the query's length but a different width is invisible
to the candidate loop: removing it changes nothing. -/
lemma searchLoop_skip_width (df : DistanceFunction) (qs : List ℚ) (qt : VectorType)
    (im : Bool) (fl : Option (Vector → Bool)) (v : Vector)
    (hd : v.Data.length = qs.length) (ht : v.type ≠ qt) :
    ∀ l₁ l₂ : List Vector,
      searchLoop df qs qt im fl (l₁ ++ v :: l₂) = searchLoop df qs qt im fl (l₁ ++ l₂) := by
  intro l₁
  induction l₁ with
  | nil =>
    intro l₂
    by_cases hp : passesFilter fl v = true
    · simp [searchLoop, hp, hd, ht]
    · simp [searchLoop, hp]
  | cons w rest ih =>
    intro l₂
    simp only [List.cons_append, searchLoop, List.append_eq]
    rw [ih l₂]

/-- Every identifier in the loop's output is the identifier of a scanned
candidate. -/
lemma searchLoop_ok_ids (df : DistanceFunction) (qs : List ℚ) (qt : VectorType)
    (im : Bool) (fl : Option (Vector → Bool)) :
    ∀ (l : List Vector) (rs : List SimilarityResult),
      searchLoop df qs qt im fl l = .ok rs →
      ∀ r ∈ rs, ∃ w ∈ l, r.ID = w.ID := by
  intro l
  induction l with
  | nil =>
    intro rs h
    simp only [searchLoop, Except.ok.injEq] at h
    subst h
    simp
  | cons v rest ih =>
    intro rs h r hr
    by_cases hp : passesFilter fl v = true
    · by_cases hd : v.Data.length ≠ qs.length
      · simp [searchLoop, hp, hd] at h
      · by_cases ht : v.type ≠ qt
        · obtain ⟨w, hw, hid⟩ := ih rs (by simpa [searchLoop, hp, hd, ht] using h) r hr
          exact ⟨w, List.mem_cons_of_mem v hw, hid⟩
        · push_neg at hd ht
          have h2 : (searchLoop df qs qt im fl rest).map
              (fun results =>
                ({ ID := v.ID
                   Score := calculateSimilarity qs v.Data qt df
                   Metadata := if im then v.Metadata else {} } : SimilarityResult) :: results) =
              .ok rs := by
            simpa [searchLoop, hp, hd, ht] using h
          cases hrest : searchLoop df qs qt im fl rest with
          | error e => rw [hrest] at h2; simp [Except.map] at h2
          | ok rs2 =>
            rw [hrest] at h2
            simp only [Except.map, Except.ok.injEq] at h2
            subst h2
            rcases List.mem_cons.mp hr with rfl | hr2
            · exact ⟨v, List.mem_cons_self v rest, rfl⟩
            · obtain ⟨w, hw, hid⟩ := ih rs2 hrest r hr2
              exact ⟨w, List.mem_cons_of_mem v hw, hid⟩
    · obtain ⟨w, hw, hid⟩ := ih rs (by simpa [searchLoop, hp] using h) r hr
      exact ⟨w, List.mem_cons_of_mem v hw, hid⟩

/-- The induced non-strict comparator is transitive. -/
lemma sortLe_trans (df : DistanceFunction) :
    ∀ x y z : SimilarityResult,
      sortLe df x y = true → sortLe df y z = true → sortLe df x z = true := by
  intro x y z hxy hyz
  by_cases hc : df = EuclideanDistance ∨ df = ManhattanDistance
  · simp only [sortLe, lessFn, if_pos hc, Bool.not_eq_true', decide_eq_false_iff_not, not_lt] at *
    exact le_trans hxy hyz
  · simp only [sortLe, lessFn, if_neg hc, Bool.not_eq_true', decide_eq_false_iff_not, not_lt] at *
    exact le_trans hyz hxy

/-- The induced non-strict comparator is total. -/
lemma sortLe_total (df : DistanceFunction) :
    ∀ x y : SimilarityResult, (sortLe df x y || sortLe df y x) = true := by
  intro x y
  by_cases hc : df = EuclideanDistance ∨ df = ManhattanDistance
  · simp only [sortLe, lessFn, if_pos hc, Bool.or_eq_true, Bool.not_eq_true',
      decide_eq_false_iff_not, not_lt]
    exact le_total _ _
  · simp only [sortLe, lessFn, if_neg hc, Bool.or_eq_true, Bool.not_eq_true',
      decide_eq_false_iff_not, not_lt]
    exact le_total _ _

/-- The output of sortResults is sorted by the induced non-strict order. -/
lemma sortResults_sorted (df : DistanceFunction) (l : List SimilarityResult) :
    (sortResults df l).Pairwise (fun x y => sortLe df x y = true) := by
  haveI htot : IsTotal SimilarityResult (fun x y => sortLe df x y = true) :=
    ⟨by
      intro a b
      have h := sortLe_total df a b
      simpa [Bool.or_eq_true] using h⟩
  haveI htrans : IsTrans SimilarityResult (fun x y => sortLe df x y = true) :=
    ⟨fun a b c hab hbc => sortLe_trans df a b c hab hbc⟩
  exact List.sorted_insertionSort (fun x y => sortLe df x y = true) l

/-- For the two distance metrics, sorting yields nondecreasing scores. -/
lemma sortResults_pairwise_asc (df : DistanceFunction)
    (hc : df = EuclideanDistance ∨ df = ManhattanDistance) (l : List SimilarityResult) :
    (sortResults df l).Pairwise (fun x y => x.Score ≤ y.Score) := by
  refine List.Pairwise.imp ?_ (sortResults_sorted df l)
  intro a b hab
  simp only [sortLe, lessFn, if_pos hc, Bool.not_eq_true', decide_eq_false_iff_not, not_lt] at hab
  exact hab

/-- For every other metric selector, sorting yields nonincreasing scores. -/
lemma sortResults_pairwise_desc (df : DistanceFunction)
    (hc : ¬ (df = EuclideanDistance ∨ df = ManhattanDistance)) (l : List SimilarityResult) :
    (sortResults df l).Pairwise (fun x y => y.Score ≤ x.Score) := by
  refine List.Pairwise.imp ?_ (sortResults_sorted df l)
  intro a b hab
  simp only [sortLe, lessFn, if_neg hc, Bool.not_eq_true', decide_eq_false_iff_not, not_lt] at hab
  exact hab

/-- The result list of a successful pipeline run inherits any pairwise
property that sorting establishes, because truncation only drops a suffix. -/
lemma rankDecoded_ok_pairwise (db : VectorDB) (qs : List ℚ) (qt : VectorType) (k : Int)
    (im : Bool) (fl : Option (Vector → Bool)) (res : SearchResult)
    (r : SimilarityResult → SimilarityResult → Prop)
    (hok : rankDecoded db qs qt k im fl = .ok res)
    (hsorted : ∀ rs, (sortResults db.distFunc rs).Pairwise r) :
    res.Results.Pairwise r := by
  unfold rankDecoded at hok
  by_cases h0 : qs.length = 0
  · simp [h0] at hok
  · simp only [h0, if_false, ite_false, if_neg] at hok
    by_cases hv : db.vectors.length = 0
    · simp only [hv, if_pos, ite_true] at hok
      cases hok
      simp
    · simp only [hv, if_neg, ite_false] at hok
      cases hloop : searchLoop db.distFunc qs qt im fl db.vectors with
      | error e => rw [hloop] at hok; simp at hok
      | ok results =>
        rw [hloop] at hok
        simp only [Except.ok.injEq] at hok
        subst hok
        refine List.Pairwise.sublist ?_ (hsorted results)
        repeat' split
        all_goals first
          | exact List.take_sublist _ _
          | exact List.Sublist.refl _

/-- Claim C1: if any candidate passing the optional filter has a Numeric
Sequence length different from the query's, the whole rank call fails with
a DimensionMismatch error naming the query's length and such a candidate's
length; no ranking result is returned. -/
theorem searchCore_dimension_mismatch_aborts (db : VectorDB) (query : QueryInput) (topK : Int)
    (im : Bool) (fl : Option (Vector → Bool)) (qs : List ℚ) (qt : VectorType)
    (hconv : convertToInterfaceSlice query = .ok (qs, qt)) (hne : qs ≠ [])
    (hbad : ∃ v ∈ db.vectors, passesFilter fl v = true ∧ v.Data.length ≠ qs.length) :
    ∃ v ∈ db.vectors, passesFilter fl v = true ∧ v.Data.length ≠ qs.length ∧
      searchCore db query topK im fl = .error (.dimensionMismatch qs.length v.Data.length) := by
  obtain ⟨v, hv, hvp, hvd, hloop⟩ :=
    searchLoop_mismatch_error db.distFunc qs qt im fl db.vectors hbad
  refine ⟨v, hv, hvp, hvd, ?_⟩
  rw [searchCore_eq_of_convert hconv]
  unfold rankDecoded
  have h0 : ¬ qs.length = 0 := by simpa [List.length_eq_zero] using hne
  have hvec : ¬ db.vectors.length = 0 := by
    intro hz
    rw [List.length_eq_zero] at hz
    rw [hz] at hv
    simp at hv
  simp [h0, hvec, hloop]

theorem searchCore_dimension_mismatch_aborts_witness :
    ∃ v ∈ ({ vectors := [{ ID := "good", Data := [1, 2, 3], type := Float64 },
                         { ID := "bad", Data := [1, 2], type := Float64 }],
             distFunc := CosineSimilarity } : VectorDB).vectors,
      passesFilter none v = true ∧ v.Data.length ≠ ([1, 0, 0] : List ℚ).length ∧
        searchCore { vectors := [{ ID := "good", Data := [1, 2, 3], type := Float64 },
                                 { ID := "bad", Data := [1, 2], type := Float64 }],
                     distFunc := CosineSimilarity }
            (.float64Slice [1, 0, 0]) 5 true none =
          .error (.dimensionMismatch ([1, 0, 0] : List ℚ).length v.Data.length) :=
  searchCore_dimension_mismatch_aborts _ _ 5 true none [1, 0, 0] Float64 rfl (by simp)
    ⟨{ ID := "bad", Data := [1, 2], type := Float64 },
      List.mem_cons_of_mem _ (List.mem_cons_self _ _), rfl, by simp⟩

/-- Convert a metric selector being cosine or dot product into the negation
of the sort comparator's condition. -/
lemma not_distance_metric {df : DistanceFunction}
    (hc : df = CosineSimilarity ∨ df = DotProduct) :
    ¬ (df = EuclideanDistance ∨ df = ManhattanDistance) := by
  rcases hc with h | h <;> rw [h] <;> decide

/-- Sortedness of a successful searchCore call, phrased at a decoded query. -/
lemma searchCore_sorted_aux {query : QueryInput} {qs : List ℚ} {qt : VectorType}
    (hconv : convertToInterfaceSlice query = .ok (qs, qt))
    (db : VectorDB) (topK : Int) (im : Bool) (fl : Option (Vector → Bool)) (res : SearchResult)
    (hok : searchCore db query topK im fl = .ok res) :
    ((db.distFunc = EuclideanDistance ∨ db.distFunc = ManhattanDistance) →
      res.Results.Pairwise (fun x y => x.Score ≤ y.Score)) ∧
    ((db.distFunc = CosineSimilarity ∨ db.distFunc = DotProduct) →
      res.Results.Pairwise (fun x y => y.Score ≤ x.Score)) := by
  rw [searchCore_eq_of_convert hconv] at hok
  constructor
  · intro hc
    exact rankDecoded_ok_pairwise db qs qt topK im fl res _ hok
      (sortResults_pairwise_asc db.distFunc hc)
  · intro hc
    exact rankDecoded_ok_pairwise db qs qt topK im fl res _ hok
      (sortResults_pairwise_desc db.distFunc (not_distance_metric hc))

/-- Claim C2: every successful rank call returns results sorted by score:
nondecreasing for Euclidean and Manhattan distance, nonincreasing for
cosine similarity and dot product. -/
theorem searchCore_results_sorted (db : VectorDB) (query : QueryInput) (topK : Int)
    (im : Bool) (fl : Option (Vector → Bool)) (res : SearchResult)
    (hok : searchCore db query topK im fl = .ok res) :
    ((db.distFunc = EuclideanDistance ∨ db.distFunc = ManhattanDistance) →
      res.Results.Pairwise (fun x y => x.Score ≤ y.Score)) ∧
    ((db.distFunc = CosineSimilarity ∨ db.distFunc = DotProduct) →
      res.Results.Pairwise (fun x y => y.Score ≤ x.Score)) := by
  cases query with
  | unsupportedInput => simp [searchCore, convertToInterfaceSlice] at hok
  | float32Slice d =>
    exact searchCore_sorted_aux
      (rfl : convertToInterfaceSlice (.float32Slice d) = .ok (d, Float32)) db topK im fl res hok
  | float64Slice d =>
    exact searchCore_sorted_aux
      (rfl : convertToInterfaceSlice (.float64Slice d) = .ok (d, Float64)) db topK im fl res hok

theorem searchCore_results_sorted_witness :
    ((({ vectors := [{ ID := "w", Data := [1], type := Float32 }],
         distFunc := EuclideanDistance } : VectorDB).distFunc = EuclideanDistance ∨
      ({ vectors := [{ ID := "w", Data := [1], type := Float32 }],
         distFunc := EuclideanDistance } : VectorDB).distFunc = ManhattanDistance) →
      (({ Results := [], Total := 0 } : SearchResult)).Results.Pairwise
        (fun x y => x.Score ≤ y.Score)) ∧
    ((({ vectors := [{ ID := "w", Data := [1], type := Float32 }],
         distFunc := EuclideanDistance } : VectorDB).distFunc = CosineSimilarity ∨
      ({ vectors := [{ ID := "w", Data := [1], type := Float32 }],
         distFunc := EuclideanDistance } : VectorDB).distFunc = DotProduct) →
      (({ Results := [], Total := 0 } : SearchResult)).Results.Pairwise
        (fun x y => y.Score ≤ x.Score)) :=
  searchCore_results_sorted
    { vectors := [{ ID := "w", Data := [1], type := Float32 }], distFunc := EuclideanDistance }
    (.float64Slice [1]) 5 true none { Results := [], Total := 0 } rfl

/-- Claim C3: for every rank call with topK ≥ 1 that succeeds, the result
length is min(topK, number of qualifying candidates); an empty candidate
set short-circuits to an empty result with no error. -/
theorem searchCore_topK_length (db : VectorDB) (query : QueryInput) (topK : Int)
    (im : Bool) (fl : Option (Vector → Bool)) (qs : List ℚ) (qt : VectorType)
    (hconv : convertToInterfaceSlice query = .ok (qs, qt)) (hk : 1 ≤ topK) :
    (∀ res, searchCore db query topK im fl = .ok res →
      res.Results.length = min topK.toNat ((db.vectors.filter (qualifies qs qt fl)).length)) ∧
    (qs ≠ [] → db.vectors = [] → searchCore db query topK im fl = .ok { Results := [] }) := by
  rw [searchCore_eq_of_convert hconv]
  constructor
  · intro res hok
    unfold rankDecoded at hok
    by_cases h0 : qs.length = 0
    · simp [h0] at hok
    · rw [if_neg h0] at hok
      have hknorm : (if topK ≤ 0 then (10 : Int) else topK) = topK := if_neg (by omega)
      simp only [hknorm] at hok
      by_cases hv : db.vectors.length = 0
      · rw [if_pos hv] at hok
        simp only [Except.ok.injEq] at hok
        subst hok
        simp [List.length_eq_zero.mp hv]
      · rw [if_neg hv] at hok
        cases hloop : searchLoop db.distFunc qs qt im fl db.vectors with
        | error e => rw [hloop] at hok; simp at hok
        | ok results =>
          rw [hloop] at hok
          simp only [Except.ok.injEq] at hok
          subst hok
          have hlen := searchLoop_ok_length db.distFunc qs qt im fl db.vectors results hloop
          have hslen : (sortResults db.distFunc results).length = results.length :=
            List.length_insertionSort _ _
          by_cases hgt : ((sortResults db.distFunc results).length : Int) > topK
          · simp only [if_pos hgt]
            rw [List.length_take, hslen, hlen]
          · simp only [if_neg hgt]
            have h1 : ((sortResults db.distFunc results).length : Int) ≤ topK := by omega
            have h2 : (sortResults db.distFunc results).length =
                (db.vectors.filter (qualifies qs qt fl)).length := by rw [hslen, hlen]
            omega
  · intro hne hnil
    unfold rankDecoded
    rw [if_neg (by simpa [List.length_eq_zero] using hne)]
    simp [hnil]

theorem searchCore_topK_length_witness :
    (∀ res,
      searchCore
          { vectors := [{ ID := "w", Data := [1], type := Float32 }], distFunc := CosineSimilarity }
          (.float64Slice [1]) 5 true none = .ok res →
      res.Results.length =
        min (5 : Int).toNat
          ((({ vectors := [{ ID := "w", Data := [1], type := Float32 }],
               distFunc := CosineSimilarity } : VectorDB).vectors.filter
            (qualifies [1] Float64 none)).length)) ∧
    (([1] : List ℚ) ≠ [] →
      ({ vectors := [{ ID := "w", Data := [1], type := Float32 }],
         distFunc := CosineSimilarity } : VectorDB).vectors = [] →
      searchCore
          { vectors := [{ ID := "w", Data := [1], type := Float32 }], distFunc := CosineSimilarity }
          (.float64Slice [1]) 5 true none = .ok { Results := [] }) :=
  searchCore_topK_length
    { vectors := [{ ID := "w", Data := [1], type := Float32 }], distFunc := CosineSimilarity }
    (.float64Slice [1]) 5 true none [1] Float64 rfl (by omega)

/-- Every identifier in a successful pipeline result names a stored
candidate: truncation is a sublist of the sorted list, which is a
permutation of the loop output. -/
lemma rankDecoded_ok_mem_ids (db : VectorDB) (qs : List ℚ) (qt : VectorType) (k : Int)
    (im : Bool) (fl : Option (Vector → Bool)) (res : SearchResult)
    (hok : rankDecoded db qs qt k im fl = .ok res) :
    ∀ r ∈ res.Results, ∃ w ∈ db.vectors, r.ID = w.ID := by
  unfold rankDecoded at hok
  by_cases h0 : qs.length = 0
  · simp [h0] at hok
  · rw [if_neg h0] at hok
    by_cases hv : db.vectors.length = 0
    · rw [if_pos hv] at hok
      simp only [Except.ok.injEq] at hok
      subst hok
      simp
    · rw [if_neg hv] at hok
      cases hloop : searchLoop db.distFunc qs qt im fl db.vectors with
      | error e => rw [hloop] at hok; simp at hok
      | ok results =>
        rw [hloop] at hok
        simp only [Except.ok.injEq] at hok
        subst hok
        intro r hr
        have hr2 : r ∈ sortResults db.distFunc results := by
          by_cases hgt : ((sortResults db.distFunc results).length : Int) >
              (if k ≤ 0 then (10 : Int) else k)
          · rw [if_pos hgt] at hr
            exact (List.take_sublist _ _).subset hr
          · rwa [if_neg hgt] at hr
        have hr3 : r ∈ results := (List.perm_insertionSort _ results).subset hr2
        exact searchLoop_ok_ids db.distFunc qs qt im fl db.vectors results hloop r hr3

/-- Claim C4: a candidate whose length matches the query but whose Element
Width differs is silently skipped: the call behaves exactly as if the
candidate were absent (same success or failure, same results), and in
particular its identifier never appears among the returned candidates. -/
theorem searchCore_width_mismatch_skipped (db db2 : VectorDB) (query : QueryInput) (topK : Int)
    (im : Bool) (fl : Option (Vector → Bool)) (qs : List ℚ) (qt : VectorType)
    (v : Vector) (l₁ l₂ : List Vector)
    (hconv : convertToInterfaceSlice query = .ok (qs, qt))
    (hd : v.Data.length = qs.length) (ht : v.type ≠ qt)
    (hvecs : db.vectors = l₁ ++ v :: l₂) (hvecs2 : db2.vectors = l₁ ++ l₂)
    (hdf : db2.distFunc = db.distFunc)
    (hfresh : ∀ w ∈ l₁ ++ l₂, w.ID ≠ v.ID) :
    searchCore db query topK im fl = searchCore db2 query topK im fl ∧
    (∀ res, searchCore db query topK im fl = .ok res →
      ∀ r ∈ res.Results, r.ID ≠ v.ID) := by
  have hskip := searchLoop_skip_width db.distFunc qs qt im fl v hd ht l₁ l₂
  have heq : searchCore db query topK im fl = searchCore db2 query topK im fl := by
    rw [searchCore_eq_of_convert hconv, searchCore_eq_of_convert hconv]
    unfold rankDecoded
    rw [hvecs, hvecs2, hdf]
    by_cases h0 : qs.length = 0
    · simp [h0]
    · rw [if_neg h0, if_neg h0]
      have hv1 : ¬ (l₁ ++ v :: l₂).length = 0 := by simp
      rw [if_neg hv1]
      by_cases hv2 : (l₁ ++ l₂).length = 0
      · have hnil : l₁ ++ l₂ = [] := List.length_eq_zero.mp hv2
        obtain ⟨hl₁, hl₂⟩ := List.append_eq_nil.mp hnil
        subst hl₁; subst hl₂
        simp only [List.nil_append] at hskip ⊢
        rw [hskip]
        have hng : ¬ ((0 : Int) > if topK ≤ 0 then (10 : Int) else topK) := by
          split <;> omega
        simp [searchLoop, sortResults, List.insertionSort, hng]
      · rw [if_neg hv2, hskip]
  refine ⟨heq, ?_⟩
  intro res hok r hr
  have hok2 : searchCore db2 query topK im fl = .ok res := by rw [← heq]; exact hok
  have hok3 : rankDecoded db2 qs qt topK im fl = .ok res := by
    rw [← searchCore_eq_of_convert hconv]; exact hok2
  obtain ⟨w, hw, hid⟩ := rankDecoded_ok_mem_ids db2 qs qt topK im fl res hok3 r hr
  rw [hvecs2] at hw
  intro hcontra
  exact hfresh w hw (by rw [← hid]; exact hcontra)

theorem searchCore_width_mismatch_skipped_witness :
    searchCore
        { vectors := [{ ID := "m", Data := [1], type := Float32 },
                      { ID := "a", Data := [2], type := Float32 }],
          distFunc := CosineSimilarity } (.float64Slice [1]) 5 true none =
      searchCore
        { vectors := [{ ID := "a", Data := [2], type := Float32 }],
          distFunc := CosineSimilarity } (.float64Slice [1]) 5 true none ∧
    (∀ res,
      searchCore
          { vectors := [{ ID := "m", Data := [1], type := Float32 },
                        { ID := "a", Data := [2], type := Float32 }],
            distFunc := CosineSimilarity } (.float64Slice [1]) 5 true none = .ok res →
      ∀ r ∈ res.Results, r.ID ≠ ({ ID := "m", Data := [1], type := Float32 } : Vector).ID) :=
  searchCore_width_mismatch_skipped
    { vectors := [{ ID := "m", Data := [1], type := Float32 },
                  { ID := "a", Data := [2], type := Float32 }],
      distFunc := CosineSimilarity }
    { vectors := [{ ID := "a", Data := [2], type := Float32 }], distFunc := CosineSimilarity }
    (.float64Slice [1]) 5 true none [1] Float64
    { ID := "m", Data := [1], type := Float32 }
    [] [{ ID := "a", Data := [2], type := Float32 }]
    rfl rfl (by decide) rfl rfl rfl (by simp)

/-- Claim C6, amended: two rank calls with the same query, metric and topK
over the same candidate snapshot presented in the same iteration order
return identical ordered results (the engine is a pure function of the
ordered snapshot).  As originally stated the claim is false: the stored
candidates live in a Go map whose iteration order is not fixed across
invocations, and with tied scores two orders of the same snapshot produce
differently ordered result lists — see the counterexample below. -/
theorem searchCore_deterministic (db1 db2 : VectorDB) (query : QueryInput) (topK : Int)
    (im : Bool) (fl : Option (Vector → Bool))
    (hvec : db1.vectors = db2.vectors) (hdf : db1.distFunc = db2.distFunc) :
    searchCore db1 query topK im fl = searchCore db2 query topK im fl := by
  obtain ⟨v1, d1, f1⟩ := db1
  obtain ⟨v2, d2, f2⟩ := db2
  simp only at hvec hdf
  subst hvec
  subst hdf
  rfl

theorem searchCore_deterministic_witness :
    searchCore
        { vectors := [{ ID := "w", Data := [1], type := Float32 }], dimension := 3,
          distFunc := CosineSimilarity } (.float64Slice [1]) 5 true none =
      searchCore
        { vectors := [{ ID := "w", Data := [1], type := Float32 }], dimension := 7,
          distFunc := CosineSimilarity } (.float64Slice [1]) 5 true none :=
  searchCore_deterministic
    { vectors := [{ ID := "w", Data := [1], type := Float32 }], dimension := 3,
      distFunc := CosineSimilarity }
    { vectors := [{ ID := "w", Data := [1], type := Float32 }], dimension := 7,
      distFunc := CosineSimilarity }
    (.float64Slice [1]) 5 true none rfl rfl

/-- Claim C6, refuted as stated: the same unordered candidate snapshot (the
two vector lists are permutations of each other, modelling two iteration
orders of one Go map) with the same metric, query and topK yields two
different ordered result lists when scores tie: the tied candidates keep
their respective iteration orders. -/
theorem searchCore_deterministic_counterexample :
    ({ vectors := [{ ID := "a", Data := [0], type := Float64 },
                   { ID := "b", Data := [0], type := Float64 }],
       distFunc := DotProduct } : VectorDB).vectors.Perm
      ({ vectors := [{ ID := "b", Data := [0], type := Float64 },
                     { ID := "a", Data := [0], type := Float64 }],
         distFunc := DotProduct } : VectorDB).vectors ∧
    ({ vectors := [{ ID := "a", Data := [0], type := Float64 },
                   { ID := "b", Data := [0], type := Float64 }],
       distFunc := DotProduct } : VectorDB).distFunc =
      ({ vectors := [{ ID := "b", Data := [0], type := Float64 },
                     { ID := "a", Data := [0], type := Float64 }],
         distFunc := DotProduct } : VectorDB).distFunc ∧
    searchCore
        { vectors := [{ ID := "a", Data := [0], type := Float64 },
                      { ID := "b", Data := [0], type := Float64 }], distFunc := DotProduct }
        (.float64Slice [1]) 5 true none ≠
      searchCore
        { vectors := [{ ID := "b", Data := [0], type := Float64 },
                      { ID := "a", Data := [0], type := Float64 }], distFunc := DotProduct }
        (.float64Slice [1]) 5 true none := by
  refine ⟨List.Perm.swap _ _ _, rfl, ?_⟩
  have hA : searchCore
        { vectors := [{ ID := "a", Data := [0], type := Float64 },
                      { ID := "b", Data := [0], type := Float64 }], distFunc := DotProduct }
        (.float64Slice [1]) 5 true none =
      .ok { Results := [{ ID := "a", Score := ((0 : ℚ) : WithTop ℚ) },
                        { ID := "b", Score := ((0 : ℚ) : WithTop ℚ) }], Total := 2 } := by
    simp [searchCore, convertToInterfaceSlice, rankDecoded, searchLoop, calculateSimilarity,
      dotProduct, getNumericOps, Float64Ops, sortResults, List.insertionSort, List.orderedInsert,
      sortLe, lessFn, passesFilter, DotProduct, CosineSimilarity, EuclideanDistance,
      ManhattanDistance, Float64, Float32, Except.map]
  have hB : searchCore
        { vectors := [{ ID := "b", Data := [0], type := Float64 },
                      { ID := "a", Data := [0], type := Float64 }], distFunc := DotProduct }
        (.float64Slice [1]) 5 true none =
      .ok { Results := [{ ID := "b", Score := ((0 : ℚ) : WithTop ℚ) },
                        { ID := "a", Score := ((0 : ℚ) : WithTop ℚ) }], Total := 2 } := by
    simp [searchCore, convertToInterfaceSlice, rankDecoded, searchLoop, calculateSimilarity,
      dotProduct, getNumericOps, Float64Ops, sortResults, List.insertionSort, List.orderedInsert,
      sortLe, lessFn, passesFilter, DotProduct, CosineSimilarity, EuclideanDistance,
      ManhattanDistance, Float64, Float32, Except.map]
  rw [hA, hB]
  intro h
  simp only [Except.ok.injEq, SearchResult.mk.injEq, List.cons.injEq,
    SimilarityResult.mk.injEq] at h
  exact absurd h.2.1.1.1 (by decide)

/-- If any query in the batch fails, the batch loop fails with that query's
identifier attached to its error. -/
lemma batchLoop_error (db : VectorDB) (k : Int) :
    ∀ queries : List (String × QueryInput),
      (∃ p ∈ queries, ∃ e, searchCore db p.2 k true none = .error e) →
      ∃ p ∈ queries, ∃ e, searchCore db p.2 k true none = .error e ∧
        batchLoop db k queries = .error (p.1, e) := by
  intro queries
  induction queries with
  | nil => intro h; simp at h
  | cons p rest ih =>
    intro h
    obtain ⟨qid, q⟩ := p
    cases hq : searchCore db q k true none with
    | error e =>
      exact ⟨(qid, q), List.mem_cons_self _ _, e, hq, by simp [batchLoop, hq]⟩
    | ok r =>
      have hrest : ∃ p ∈ rest, ∃ e, searchCore db p.2 k true none = .error e := by
        obtain ⟨p2, hp2, e, he⟩ := h
        rcases List.mem_cons.mp hp2 with rfl | h2
        · simp [hq] at he
        · exact ⟨p2, h2, e, he⟩
      obtain ⟨p2, hp2, e, he, hloop⟩ := ih hrest
      exact ⟨p2, List.mem_cons_of_mem _ hp2, e, he,
        by simp [batchLoop, hq, hloop, Except.map]⟩

/-- Claim C7: if any single query of a batch fails validation, the whole
rankBatch call fails with that query's error annotated with the offending
query identifier, and no partial result mapping is returned. -/
theorem batchSearch_fails_on_any_query_error (db : VectorDB)
    (queries : List (String × QueryInput)) (topK : Option Int)
    (hfail : ∃ p ∈ queries, ∃ e, searchCore db p.2 (topK.getD 10) true none = .error e) :
    ∃ p ∈ queries, ∃ e, searchCore db p.2 (topK.getD 10) true none = .error e ∧
      BatchSearch db queries topK = .error (p.1, e) :=
  batchLoop_error db (topK.getD 10) queries hfail

theorem batchSearch_fails_on_any_query_error_witness :
    ∃ p ∈ ([("a", QueryInput.float64Slice [1]), ("b", QueryInput.float64Slice [])] :
        List (String × QueryInput)), ∃ e,
      searchCore
          { vectors := [{ ID := "w", Data := [1], type := Float32 }],
            distFunc := CosineSimilarity } p.2 ((none : Option Int).getD 10) true none =
        .error e ∧
      BatchSearch
          { vectors := [{ ID := "w", Data := [1], type := Float32 }],
            distFunc := CosineSimilarity }
          [("a", .float64Slice [1]), ("b", .float64Slice [])] none = .error (p.1, e) :=
  batchSearch_fails_on_any_query_error
    { vectors := [{ ID := "w", Data := [1], type := Float32 }], distFunc := CosineSimilarity }
    [("a", .float64Slice [1]), ("b", .float64Slice [])] none
    ⟨("b", .float64Slice []), List.mem_cons_of_mem _ (List.mem_cons_self _ _),
      .emptyQuery, rfl⟩

/-- With a metric selector outside the four constants, the dispatch falls
through to dot product. -/
lemma calculateSimilarity_default {df : DistanceFunction}
    (h0 : df ≠ CosineSimilarity) (h1 : df ≠ DotProduct)
    (h2 : df ≠ EuclideanDistance) (h3 : df ≠ ManhattanDistance)
    (a b : List ℚ) (vt : VectorType) :
    calculateSimilarity a b vt df = ((dotProduct a b vt : ℚ) : WithTop ℚ) := by
  unfold calculateSimilarity
  rw [if_neg h0, if_neg h1, if_neg h2, if_neg h3]

/-- The sort comparator treats an unknown metric like dot product. -/
lemma sortLe_default {df : DistanceFunction}
    (h2 : df ≠ EuclideanDistance) (h3 : df ≠ ManhattanDistance) :
    sortLe df = sortLe DotProduct := by
  funext x y
  unfold sortLe lessFn
  rw [if_neg (by simp [h2, h3]), if_neg (by decide)]

/-- Sorting with an unknown metric equals sorting with dot product. -/
lemma sortResults_default {df : DistanceFunction}
    (h2 : df ≠ EuclideanDistance) (h3 : df ≠ ManhattanDistance)
    (l : List SimilarityResult) :
    sortResults df l = sortResults DotProduct l := by
  unfold sortResults
  rw [sortLe_default h2 h3]

/-- The candidate loop with an unknown metric equals the loop with dot
product. -/
lemma searchLoop_default {df : DistanceFunction}
    (h0 : df ≠ CosineSimilarity) (h1 : df ≠ DotProduct)
    (h2 : df ≠ EuclideanDistance) (h3 : df ≠ ManhattanDistance)
    (qs : List ℚ) (qt : VectorType) (im : Bool) (fl : Option (Vector → Bool)) :
    ∀ l : List Vector,
      searchLoop df qs qt im fl l = searchLoop DotProduct qs qt im fl l := by
  intro l
  induction l with
  | nil => rfl
  | cons v rest ih =>
    simp only [searchLoop, ih, calculateSimilarity_default h0 h1 h2 h3]
    have hdot : calculateSimilarity qs v.Data qt DotProduct =
        ((dotProduct qs v.Data qt : ℚ) : WithTop ℚ) := by
      unfold calculateSimilarity
      rw [if_neg (by decide), if_pos rfl]
    rw [hdot]

/-- Claim C10: a DistanceFunction value outside the four defined selectors
does not make rank fail: candidates are scored with the dot product (the
call behaves exactly like a DotProduct call over the same snapshot) and
results are sorted in nonincreasing score order. -/
theorem searchCore_unknown_metric_fallback (df : DistanceFunction)
    (h0 : df ≠ CosineSimilarity) (h1 : df ≠ DotProduct)
    (h2 : df ≠ EuclideanDistance) (h3 : df ≠ ManhattanDistance)
    (db : VectorDB) (query : QueryInput) (topK : Int) (im : Bool)
    (fl : Option (Vector → Bool)) (hdb : db.distFunc = df) :
    (∀ a b vt, calculateSimilarity a b vt df = ((dotProduct a b vt : ℚ) : WithTop ℚ)) ∧
    (∀ db2 : VectorDB, db2.vectors = db.vectors → db2.distFunc = DotProduct →
      searchCore db query topK im fl = searchCore db2 query topK im fl) ∧
    (∀ res, searchCore db query topK im fl = .ok res →
      res.Results.Pairwise (fun x y => y.Score ≤ x.Score)) := by
  refine ⟨fun a b vt => calculateSimilarity_default h0 h1 h2 h3 a b vt, ?_, ?_⟩
  · intro db2 hv2 hd2
    cases query with
    | unsupportedInput => rfl
    | float32Slice d =>
      rw [searchCore_eq_of_convert
            (rfl : convertToInterfaceSlice (.float32Slice d) = .ok (d, Float32)),
          searchCore_eq_of_convert
            (rfl : convertToInterfaceSlice (.float32Slice d) = .ok (d, Float32))]
      unfold rankDecoded
      rw [hv2, hd2, hdb]
      simp only [searchLoop_default h0 h1 h2 h3, sortResults_default h2 h3]
    | float64Slice d =>
      rw [searchCore_eq_of_convert
            (rfl : convertToInterfaceSlice (.float64Slice d) = .ok (d, Float64)),
          searchCore_eq_of_convert
            (rfl : convertToInterfaceSlice (.float64Slice d) = .ok (d, Float64))]
      unfold rankDecoded
      rw [hv2, hd2, hdb]
      simp only [searchLoop_default h0 h1 h2 h3, sortResults_default h2 h3]
  · intro res hok
    cases query with
    | unsupportedInput => simp [searchCore, convertToInterfaceSlice] at hok
    | float32Slice d =>
      rw [searchCore_eq_of_convert
            (rfl : convertToInterfaceSlice (.float32Slice d) = .ok (d, Float32))] at hok
      exact rankDecoded_ok_pairwise db d Float32 topK im fl res _ hok
        (fun rs => by rw [hdb]; exact sortResults_pairwise_desc df (by simp [h2, h3]) rs)
    | float64Slice d =>
      rw [searchCore_eq_of_convert
            (rfl : convertToInterfaceSlice (.float64Slice d) = .ok (d, Float64))] at hok
      exact rankDecoded_ok_pairwise db d Float64 topK im fl res _ hok
        (fun rs => by rw [hdb]; exact sortResults_pairwise_desc df (by simp [h2, h3]) rs)

theorem searchCore_unknown_metric_fallback_witness :
    (∀ a b vt, calculateSimilarity a b vt (7 : Int) = ((dotProduct a b vt : ℚ) : WithTop ℚ)) ∧
    (∀ db2 : VectorDB,
      db2.vectors =
        ({ vectors := [{ ID := "w", Data := [1], type := Float32 }],
           distFunc := (7 : Int) } : VectorDB).vectors →
      db2.distFunc = DotProduct →
      searchCore
          { vectors := [{ ID := "w", Data := [1], type := Float32 }], distFunc := (7 : Int) }
          (.float64Slice [1]) 5 true none =
        searchCore db2 (.float64Slice [1]) 5 true none) ∧
    (∀ res,
      searchCore
          { vectors := [{ ID := "w", Data := [1], type := Float32 }], distFunc := (7 : Int) }
          (.float64Slice [1]) 5 true none = .ok res →
      res.Results.Pairwise (fun x y => y.Score ≤ x.Score)) :=
  searchCore_unknown_metric_fallback (7 : Int) (by decide) (by decide) (by decide) (by decide)
    { vectors := [{ ID := "w", Data := [1], type := Float32 }], distFunc := (7 : Int) }
    (.float64Slice [1]) 5 true none rfl

end ServerlessVector
